import Mathlib

/-!
Shallow embedding of the GitHub-profile scoring engine of the Hacksy
backend service (src/agent/main.py), together with a verification of the
specification's claims about it.

Modelling conventions:
* Timestamps occur in the source only as ISO-8601 strings that are fed to
  `datetime.fromisoformat` inside `try`/`except`.  The embedding carries
  each timestamp as `Option ℤ` (whole days): `some t` is a successfully
  parsed instant, `none` a missing or unparseable one.  The reference
  instant "now" ( `datetime.now()` ) is an explicit `ℤ` parameter, so the
  30-day and 180-day recency windows become integer comparisons.
* Python floats are modelled as exact rationals (`ℚ`); `int(x)` on a float
  is truncation toward zero (`pyInt`).
* `list(set(xs))` enumerates a hash table, so its order is a fixed but
  unspecified function of the inserted elements; it is modelled by an
  explicit parameter `pySet : List String → List String` standing for the
  process's set-enumeration behaviour.
* `sorted(items, key=count, reverse=True)` and `Counter.most_common(n)`
  are stable: equal counts keep first-seen order.  `sortDescCounts` is the
  corresponding stable descending insertion sort over first-seen tallies.
* `str.lower` is modelled by Lean's `String.toLower`; the keyword tables
  it feeds are ASCII, so the restriction of the Unicode tables is
  immaterial there.  The Unicode-aware character classes behind
  `str.strip` and `str.isalnum`, by contrast, live in the Python runtime,
  not in the source, so they are explicit parameters of the service
  embedding (`isSpace`, `isAlnumChar`), in the same way `pySet` is.
-/

namespace Hacksy

/-- Python `int(x)` applied to a float: truncation toward zero. -/
def pyInt (q : ℚ) : ℤ := if q < 0 then ⌈q⌉ else ⌊q⌋

/-- Does the second character list start with the first one? -/
def leadMatch : List Char → List Char → Bool
  | [], _ => true
  | _ :: _, [] => false
  | a :: as, b :: bs => a = b && leadMatch as bs

/-- Does the pattern occur as a contiguous run inside the list? -/
def occursIn (pat : List Char) : List Char → Bool
  | [] => pat.isEmpty
  | c :: cs => leadMatch pat (c :: cs) || occursIn pat cs

/-- Python substring test `pat in s`. -/
def strIn (pat s : String) : Bool := occursIn pat.data s.data

/-- Python `any(kw in name or kw in desc for kw in kws)`. -/
def anyKw (name desc : String) (kws : List String) : Bool :=
  kws.any (fun kw => strIn kw name || strIn kw desc)

/-- Add `v` to the tally of key `k`, keeping first-insertion order
(Python dict update semantics). -/
def bumpBy (m : List (String × ℕ)) (k : String) (v : ℕ) : List (String × ℕ) :=
  match m with
  | [] => [(k, v)]
  | (k', c) :: rest => if k' = k then (k', c + v) :: rest else (k', c) :: bumpBy rest k v

/-- First-seen-ordered frequency tallies (Python `Counter` iteration order). -/
def tallies (l : List String) : List (String × ℕ) :=
  l.foldl (fun m k => bumpBy m k 1) []

/-- Insert into a descending-count list, placing the new entry in front of
every entry of equal or smaller count (the new entry always comes from
earlier input, so this is exactly the stability of Python's sorts). -/
def insertDesc (x : String × ℕ) : List (String × ℕ) → List (String × ℕ)
  | [] => [x]
  | y :: ys => if y.2 ≤ x.2 then x :: y :: ys else y :: insertDesc x ys

/-- Stable descending sort by count, `sorted(items, key=count, reverse=True)`. -/
def sortDescCounts : List (String × ℕ) → List (String × ℕ)
  | [] => []
  | x :: xs => insertDesc x (sortDescCounts xs)

/-- Python `[k for k, c in Counter(l).most_common(n)]`. -/
def mostCommon (n : ℕ) (l : List String) : List String :=
  ((sortDescCounts (tallies l)).take n).map Prod.fst

/-- Helper for `dedupFirst`, carrying the set of keys already emitted. -/
def dedupFirstAux : List String → List String → List String
  | [], _ => []
  | x :: xs, seen =>
    if seen.contains x then dedupFirstAux xs seen else x :: dedupFirstAux xs (x :: seen)

/-- Python `list(dict.fromkeys(l))`: deduplicate keeping first occurrences. -/
def dedupFirst (l : List String) : List String := dedupFirstAux l []

/-- Platform account metadata (§3 RawUserRecord, the `user_data` JSON object).
`created_at` is the parse result of the creation timestamp. -/
structure RawUserRecord where
  username : String
  name : String
  bio : String
  company : String
  location : String
  created_at : Option ℤ
  public_repos : ℕ
  followers : ℕ
  following : ℕ
deriving Repr, DecidableEq

/-- Per-repository metadata (§3 RawRepositoryRecord).  `language` and
`description` are nullable in the platform's JSON; `updated_at` is the parse
result of the last-updated timestamp. -/
structure RawRepositoryRecord where
  name : String
  description : Option String
  language : Option String
  stargazers_count : ℕ
  forks_count : ℕ
  size : ℕ
  topics : List String
  updated_at : Option ℤ
  fork : Bool
deriving Repr, DecidableEq

/-- Per-event metadata (§3 RawEventRecord). -/
structure RawEventRecord where
  type : String
  created_at : Option ℤ
deriving Repr, DecidableEq

/-- Output of `_analyze_repositories`. -/
structure RepositoryAnalysis where
  total_stars : ℕ
  total_forks : ℕ
  avg_complexity : String
  popular_topics : List String
  frameworks_used : List String
  project_types : List String
  recent_activity : Bool
deriving Repr, DecidableEq

/-- Output of `_analyze_activity_patterns`. -/
structure ActivityAnalysis where
  recent_activity_score : ℕ
  activity_type : String
  preferred_days : List String
  commit_frequency : String
  collaboration_level : String
deriving Repr, DecidableEq

def frontendKws : List String := ["react", "vue", "angular"]

def backendKws : List String := ["django", "flask", "fastapi", "express"]

def aimlKws : List String := ["ml", "ai", "neural", "tensorflow", "pytorch"]

def apiKws : List String := ["api", "rest", "graphql"]

def mobileKws : List String := ["mobile", "android", "ios", "flutter"]

/-- Framework labels contributed by one repository (main.py lines 197-201). -/
def repoFrameworks (r : RawRepositoryRecord) : List String :=
  let n := r.name.toLower
  let d := (r.description.getD "").toLower
  (if anyKw n d frontendKws then ["Frontend Framework"] else []) ++
  (if anyKw n d backendKws then ["Backend Framework"] else [])

/-- Project-type labels contributed by one repository (main.py lines 202-207). -/
def repoProjectTypes (r : RawRepositoryRecord) : List String :=
  let n := r.name.toLower
  let d := (r.description.getD "").toLower
  (if anyKw n d aimlKws then ["AI/ML"] else []) ++
  (if anyKw n d apiKws then ["API Development"] else []) ++
  (if anyKw n d mobileKws then ["Mobile Development"] else [])

/-- Was the repository updated within the trailing 180-day window?
Unparseable `updated_at` values are skipped (main.py lines 210-217). -/
def recentRepoFlag (now : ℤ) (r : RawRepositoryRecord) : Bool :=
  match r.updated_at with
  | some t => decide (t > now - 180)
  | none => false

/-- `avg_stars = total_stars / max(len(repos_data), 1)` (main.py line 220). -/
def avgStars (total_stars count : ℕ) : ℚ :=
  (total_stars : ℚ) / ((max count 1 : ℕ) : ℚ)

/-- Complexity tier from aggregate stars/forks (main.py lines 219-224). -/
def complexityTier (total_stars total_forks count : ℕ) : String :=
  if avgStars total_stars count > 50 ∨ total_forks > 20 then "advanced"
  else if avgStars total_stars count < 5 ∧ total_forks < 3 then "beginner"
  else "intermediate"

/-- `_analyze_repositories` (main.py lines 168-235).  The `session`,
`headers` and `username` parameters of the source are unused by its body. -/
def analyze_repositories (pySet : List String → List String) (now : ℤ)
    (repos_data : List RawRepositoryRecord) : RepositoryAnalysis :=
  let total_stars := (repos_data.map (fun r => r.stargazers_count)).sum
  let total_forks := (repos_data.map (fun r => r.forks_count)).sum
  let all_topics := (repos_data.map (fun r => r.topics)).flatten
  let frameworks := (repos_data.map repoFrameworks).flatten
  let project_types := (repos_data.map repoProjectTypes).flatten
  { total_stars := total_stars
    total_forks := total_forks
    avg_complexity := complexityTier total_stars total_forks repos_data.length
    popular_topics := mostCommon 5 all_topics
    frameworks_used := pySet frameworks
    project_types := pySet project_types
    recent_activity := repos_data.any (recentRepoFlag now) }

/-- Is the event inside the trailing window of the given length (in days)?
Unparseable timestamps fail the test (the per-event `try`/`except`). -/
def inWindow (now days : ℤ) (e : RawEventRecord) : Bool :=
  match e.created_at with
  | some t => decide (t > now - days)
  | none => false

/-- The events of the trailing 30-day window (main.py lines 256-267). -/
def recentWindow (now : ℤ) (events : List RawEventRecord) : List RawEventRecord :=
  events.filter (inWindow now 30)

/-- `recent_events` counter of the activity loop. -/
def recentCount (now : ℤ) (events : List RawEventRecord) : ℕ :=
  (recentWindow now events).length

/-- `push_events` counter of the activity loop. -/
def pushCount (now : ℤ) (events : List RawEventRecord) : ℕ :=
  ((recentWindow now events).filter (fun e => e.type == "PushEvent")).length

/-- `pr_events` counter of the activity loop. -/
def prIssueCount (now : ℤ) (events : List RawEventRecord) : ℕ :=
  ((recentWindow now events).filter
    (fun e => e.type == "PullRequestEvent" || e.type == "IssuesEvent")).length

/-- `_analyze_activity_patterns` (main.py lines 237-288); the `repos_data`
parameter of the source is unused by its body.  The single accumulation
loop of the source is rendered as the three counters above. -/
def analyze_activity_patterns (now : ℤ) (events_data : List RawEventRecord) :
    ActivityAnalysis :=
  if events_data.isEmpty then
    { recent_activity_score := 0
      activity_type := "moderate"
      preferred_days := []
      commit_frequency := "weekly"
      collaboration_level := "individual" }
  else
    let recent_events := recentCount now events_data
    let push_events := pushCount now events_data
    let pr_events := prIssueCount now events_data
    { recent_activity_score := min (recent_events * 3) 100
      activity_type :=
        if recent_events > 20 then "very_active"
        else if recent_events > 10 then "active"
        else if recent_events > 3 then "moderate"
        else "low"
      preferred_days := []
      commit_frequency := "weekly"
      collaboration_level :=
        if (pr_events : ℚ) > (push_events : ℚ) * 0.3 then "collaborative"
        else if pr_events > 0 then "mixed"
        else "individual" }

/-- `_calculate_expertise_level` (main.py lines 290-333). -/
def calculate_expertise_level (now : ℤ) (user_data : RawUserRecord)
    (repos_data : List RawRepositoryRecord) (activity_analysis : ActivityAnalysis) :
    String :=
  let account_age : ℚ :=
    match user_data.created_at with
    | some created => ((min (pyInt ((((now - created : ℤ) : ℚ) / 365) * 10)) 30 : ℤ) : ℚ)
    | none => 10
  let repo_count : ℚ := ((min (user_data.public_repos * 2) 25 : ℕ) : ℚ)
  let followers : ℚ := min ((user_data.followers : ℚ) * 0.5) 20
  let activity : ℚ := (activity_analysis.recent_activity_score : ℚ) * 0.15
  let complexity : ℚ :=
    ((min (pyInt ((((repos_data.take 10).map (fun r => r.stargazers_count)).sum : ℚ) * 0.2))
        10 : ℤ) : ℚ)
  let total_score := account_age + repo_count + followers + activity + complexity
  if total_score > 70 then "expert"
  else if total_score > 40 then "intermediate"
  else if total_score > 15 then "beginner"
  else "newcomer"

def webDomainKws : List String := ["web", "website", "frontend", "backend", "fullstack"]

def dataDomainKws : List String := ["data", "ml", "ai", "machine", "neural", "analysis"]

def mobileDomainKws : List String :=
  ["mobile", "android", "ios", "app", "flutter", "react-native"]

def devopsDomainKws : List String :=
  ["docker", "kubernetes", "ci", "cd", "deploy", "infrastructure"]

def gameDomainKws : List String := ["game", "unity", "pygame", "gaming"]

def chainDomainKws : List String := ["blockchain", "crypto", "web3", "smart", "contract"]

/-- The supplementary topic-tag matching (main.py lines 368-376). -/
def topicDomain (topic : String) : List String :=
  let t := topic.toLower
  if t = "machine-learning" ∨ t = "artificial-intelligence" ∨ t = "deep-learning" then
    ["Data Science & AI"]
  else if t = "web-development" ∨ t = "frontend" ∨ t = "backend" then
    ["Web Development"]
  else if t = "mobile" ∨ t = "android" ∨ t = "ios" then
    ["Mobile Development"]
  else []

/-- Domain labels contributed by one repository (main.py lines 339-376). -/
def repoDomains (r : RawRepositoryRecord) : List String :=
  let n := r.name.toLower
  let d := (r.description.getD "").toLower
  (if anyKw n d webDomainKws then ["Web Development"] else []) ++
  (if anyKw n d dataDomainKws then ["Data Science & AI"] else []) ++
  (if anyKw n d mobileDomainKws then ["Mobile Development"] else []) ++
  (if anyKw n d devopsDomainKws then ["DevOps & Infrastructure"] else []) ++
  (if anyKw n d gameDomainKws then ["Game Development"] else []) ++
  (r.topics.map topicDomain).flatten

/-- `_extract_project_domains` (main.py lines 335-381): only the first 15
repositories are scanned, then the five most common labels are kept. -/
def extract_project_domains (repos_data : List RawRepositoryRecord) : List String :=
  mostCommon 5 (((repos_data.take 15).map repoDomains).flatten)

def collabTypes : List String := ["PullRequestEvent", "IssuesEvent", "ForkEvent"]

/-- `_analyze_collaboration_style` (main.py lines 383-396). -/
def analyze_collaboration_style (repos_data : List RawRepositoryRecord)
    (events_data : List RawEventRecord) : String :=
  let forked_repos := (repos_data.filter (fun r => r.fork)).length
  let original_repos := repos_data.length - forked_repos
  let collab_events := (events_data.filter (fun e => collabTypes.contains e.type)).length
  if (forked_repos : ℚ) > (original_repos : ℚ) * 0.5 ∨ collab_events > 5 then
    "collaborative"
  else if forked_repos > 0 ∨ collab_events > 0 then "mixed"
  else "independent"

/-- One step of the language-statistics loop (main.py lines 121-128): the
count dict and the weight dict are updated together, and only truthy
(non-null, non-empty) `language` fields contribute. -/
def langStep (st : List (String × ℕ) × List (String × ℕ)) (r : RawRepositoryRecord) :
    List (String × ℕ) × List (String × ℕ) :=
  match r.language with
  | some l =>
    if l = "" then st
    else (bumpBy st.1 l 1, bumpBy st.2 l ((r.stargazers_count + 1) * (r.size + 1)))
  | none => st

/-- The raw-count tally of the language loop, on its own. -/
def countStep (m : List (String × ℕ)) (r : RawRepositoryRecord) : List (String × ℕ) :=
  match r.language with
  | some l => if l = "" then m else bumpBy m l 1
  | none => m

/-- The weighted tally of the language loop, on its own: each repository
adds `(stars + 1) * (size + 1)` to its language. -/
def weightStep (m : List (String × ℕ)) (r : RawRepositoryRecord) : List (String × ℕ) :=
  match r.language with
  | some l => if l = "" then m else bumpBy m l ((r.stargazers_count + 1) * (r.size + 1))
  | none => m

/-- First-seen-ordered raw language counts of a repository list. -/
def langCounts (repos_data : List RawRepositoryRecord) : List (String × ℕ) :=
  repos_data.foldl countStep []

/-- First-seen-ordered weighted language totals of a repository list. -/
def langWeights (repos_data : List RawRepositoryRecord) : List (String × ℕ) :=
  repos_data.foldl weightStep []

/-- The `all_languages` computation of `get_user_profile`
(main.py lines 121-135): one pass builds both dicts, each ranking is capped
at 8, the weighted list precedes the count list, and the deduplicated union
is capped at 10. -/
def topLanguages (repos_data : List RawRepositoryRecord) : List String :=
  let p := repos_data.foldl langStep ([], [])
  let top_languages_by_count := ((sortDescCounts p.1).take 8).map Prod.fst
  let top_languages_by_bytes := ((sortDescCounts p.2).take 8).map Prod.fst
  (dedupFirst (top_languages_by_bytes ++ top_languages_by_count)).take 10

/-- The scored profile assembled by `get_user_profile`
(main.py lines 137-160). -/
structure ScoredProfile where
  username : String
  name : String
  bio : String
  repos : ℕ
  followers : ℕ
  following : ℕ
  languages : List String
  company : String
  location : String
  created_at : Option ℤ
  repository_count : ℕ
  recent_repos : List String
  repo_analysis : RepositoryAnalysis
  activity_analysis : ActivityAnalysis
  expertise_level : String
  preferred_domains : List String
  collaboration_style : String
  recent_activity_score : ℕ
  technology_diversity : ℕ
  project_complexity_preference : String
deriving Repr, DecidableEq

/-- The analysis pipeline of `get_user_profile` (main.py lines 114-160),
with the network fetches stripped away: the three raw sequences arrive as
arguments.  Deep repository analysis sees only the first 20 repositories;
the language statistics run over the whole list. -/
def analyze (pySet : List String → List String) (now : ℤ) (user : RawUserRecord)
    (repos_data : List RawRepositoryRecord) (events_data : List RawEventRecord) :
    ScoredProfile :=
  let repo_analysis := analyze_repositories pySet now (repos_data.take 20)
  let activity_analysis := analyze_activity_patterns now events_data
  let all_languages := topLanguages repos_data
  { username := user.username
    name := user.name
    bio := user.bio
    repos := user.public_repos
    followers := user.followers
    following := user.following
    languages := all_languages
    company := user.company
    location := user.location
    created_at := user.created_at
    repository_count := repos_data.length
    recent_repos := (repos_data.take 5).map (fun r => r.name)
    repo_analysis := repo_analysis
    activity_analysis := activity_analysis
    expertise_level := calculate_expertise_level now user repos_data activity_analysis
    preferred_domains := extract_project_domains repos_data
    collaboration_style := analyze_collaboration_style repos_data events_data
    recent_activity_score := activity_analysis.recent_activity_score
    technology_diversity := all_languages.length
    project_complexity_preference := repo_analysis.avg_complexity }

/-- Python `str.strip()`: drop whitespace from both ends.  The runtime's
Unicode whitespace class arrives as the parameter `isSpace`. -/
def pyStrip (isSpace : Char → Bool) (s : String) : String :=
  ⟨((s.data.dropWhile isSpace).reverse.dropWhile isSpace).reverse⟩

/-- Python `s.replace('-', '').replace('_', '')`. -/
def dropDashUnderscore (s : String) : String :=
  ⟨s.data.filter (fun c => !(c = '-' || c = '_'))⟩

/-- Python `str.isalnum()`: non-empty and every character alphanumeric.
The runtime's Unicode alphanumeric class arrives as the parameter
`isAlnumChar`. -/
def pyIsAlnum (isAlnumChar : Char → Bool) (s : String) : Bool :=
  !s.data.isEmpty && s.data.all isAlnumChar

/-- The response model of the service (main.py lines 34-39). -/
structure AnalysisResponse where
  success : Bool
  agent : String
  recommendations : Option String
  profile : Option ScoredProfile
  error : Option String
deriving Repr, DecidableEq

/-- The body of the `try` block of `analyze_github_profile`
(main.py lines 584-615).  The two awaited collaborators — the GitHub fetch
and the AI recommendation call — are taken as `Except`-valued parameters
(an `Except.error` is a raised exception with its `str(e)` message), and
the runtime's `str.strip` / `str.isalnum` character classes as the
predicate parameters `isSpace` / `isAlnumChar`. -/
def analyzeProfileE (isSpace isAlnumChar : Char → Bool) (agents : List String)
    (fetchProfile : String → Except String ScoredProfile)
    (callAgent : String → ScoredProfile → Except String String)
    (username agent_name : String) : Except String (ScoredProfile × String) :=
  if pyStrip isSpace username = "" then
    Except.error "Username cannot be empty. Please enter a valid GitHub username."
  else if (pyStrip isSpace username).length > 39 then
    Except.error "Username is too long. GitHub usernames must be 39 characters or less."
  else if !pyIsAlnum isAlnumChar (dropDashUnderscore (pyStrip isSpace username)) then
    Except.error
      "Invalid username format. GitHub usernames can only contain letters, numbers, hyphens, and underscores."
  else if !agents.contains agent_name then
    Except.error ("Agent " ++ agent_name ++ " not found in configuration")
  else
    match fetchProfile (pyStrip isSpace username) with
    | Except.error e => Except.error e
    | Except.ok profile =>
      match callAgent agent_name profile with
      | Except.error e => Except.error e
      | Except.ok recommendations => Except.ok (profile, recommendations)

/-- `analyze_github_profile` (main.py lines 582-623): the catch-all
`except` turns any raised exception into a failure response carrying the
message, with `recommendations` and `profile` unset. -/
def analyze_github_profile (isSpace isAlnumChar : Char → Bool) (agents : List String)
    (fetchProfile : String → Except String ScoredProfile)
    (callAgent : String → ScoredProfile → Except String String)
    (username agent_name : String) : AnalysisResponse :=
  match analyzeProfileE isSpace isAlnumChar agents fetchProfile callAgent username
      agent_name with
  | Except.ok pr =>
    { success := true
      agent := agent_name
      recommendations := some pr.2
      profile := some pr.1
      error := none }
  | Except.error e =>
    { success := false
      agent := agent_name
      recommendations := none
      profile := none
      error := some e }

/-- The five-factor expertise sum exactly as the source computes it: the
account-age and complexity products pass through Python `int(...)`
(truncation) before their caps are applied. -/
def expertiseScore (now : ℤ) (user_data : RawUserRecord)
    (repos_data : List RawRepositoryRecord) (activity_analysis : ActivityAnalysis) : ℚ :=
  (match user_data.created_at with
   | some created => ((min (pyInt ((((now - created : ℤ) : ℚ) / 365) * 10)) 30 : ℤ) : ℚ)
   | none => 10) +
  ((min (user_data.public_repos * 2) 25 : ℕ) : ℚ) +
  min ((user_data.followers : ℚ) * 0.5) 20 +
  (activity_analysis.recent_activity_score : ℚ) * 0.15 +
  ((min (pyInt ((((repos_data.take 10).map (fun r => r.stargazers_count)).sum : ℚ) * 0.2))
      10 : ℤ) : ℚ)

/-- The tier thresholds on the expertise factor sum (strict comparisons). -/
def expertiseTierOf (total_score : ℚ) : String :=
  if total_score > 70 then "expert"
  else if total_score > 40 then "intermediate"
  else if total_score > 15 then "beginner"
  else "newcomer"

/-- The expertise factor sum as the specification's formula table words it:
each factor is the capped product itself, with no integer truncation
anywhere.  Kept for comparison against the source's computation. -/
def expertiseScoreSpec (now : ℤ) (user_data : RawUserRecord)
    (repos_data : List RawRepositoryRecord) (activity_analysis : ActivityAnalysis) : ℚ :=
  (match user_data.created_at with
   | some created => min ((((now - created : ℤ) : ℚ) / 365) * 10) 30
   | none => 10) +
  min ((user_data.public_repos : ℚ) * 2) 25 +
  min ((user_data.followers : ℚ) * 0.5) 20 +
  (activity_analysis.recent_activity_score : ℚ) * 0.15 +
  min ((((repos_data.take 10).map (fun r => r.stargazers_count)).sum : ℚ) * 0.2) 10

/-- A user record with all fields blank or zero. -/
def blankUser : RawUserRecord :=
  { username := "", name := "", bio := "", company := "", location := "",
    created_at := none, public_repos := 0, followers := 0, following := 0 }

/-- A repository record whose only nonzero datum is its star count. -/
def starRepo (s : ℕ) : RawRepositoryRecord :=
  { name := "", description := none, language := none, stargazers_count := s,
    forks_count := 0, size := 0, topics := [], updated_at := none, fork := false }

/-- A bare repository record flagged as a fork. -/
def forkRepo : RawRepositoryRecord := { starRepo 0 with fork := true }

/-- 20 public repositories and 60 followers; with a full activity score and
an unparseable creation timestamp the truncated factor sum is exactly 70. -/
def boundaryUser : RawUserRecord := { blankUser with public_repos := 20, followers := 60 }

/-- An activity analysis carrying the maximal recent-activity score. -/
def fullActivity : ActivityAnalysis :=
  { recent_activity_score := 100, activity_type := "very_active", preferred_days := [],
    commit_frequency := "weekly", collaboration_level := "individual" }

/-- The §8 scenario user: account created 5 years (1825 days) before the
reference instant, 40 public repositories, 100 followers. -/
def scenarioUser : RawUserRecord :=
  { blankUser with created_at := some 0, public_repos := 40, followers := 100 }

/-- The §8 scenario activity analysis: recent-activity score 60. -/
def scenarioActivity : ActivityAnalysis := { fullActivity with recent_activity_score := 60 }

/-- Ten repositories totalling 501 stars (average 50.1). -/
def tenRepos501 : List RawRepositoryRecord := starRepo 501 :: List.replicate 9 (starRepo 0)

/-- Ten repositories totalling 500 stars (average exactly 50). -/
def tenRepos500 : List RawRepositoryRecord := starRepo 500 :: List.replicate 9 (starRepo 0)

/-- Ten repositories of which six are forks. -/
def sixOfTenForked : List RawRepositoryRecord :=
  List.replicate 6 forkRepo ++ List.replicate 4 (starRepo 0)

/-- The complexity tier, characterised branch by branch. -/
theorem complexityTier_eq_iff (s f n : ℕ) :
    (complexityTier s f n = "advanced" ↔ (avgStars s n > 50 ∨ f > 20)) ∧
    (complexityTier s f n = "beginner" ↔
      ¬(avgStars s n > 50 ∨ f > 20) ∧ (avgStars s n < 5 ∧ f < 3)) ∧
    (complexityTier s f n = "intermediate" ↔
      ¬(avgStars s n > 50 ∨ f > 20) ∧ ¬(avgStars s n < 5 ∧ f < 3)) := by
  unfold complexityTier
  split_ifs with h1 h2
  · exact ⟨iff_of_true rfl h1,
      iff_of_false (by decide) (fun hc => hc.1 h1),
      iff_of_false (by decide) (fun hc => hc.1 h1)⟩
  · exact ⟨iff_of_false (by decide) h1,
      iff_of_true rfl ⟨h1, h2⟩,
      iff_of_false (by decide) (fun hc => hc.2 h2)⟩
  · exact ⟨iff_of_false (by decide) h1,
      iff_of_false (by decide) (fun hc => h2 hc.2),
      iff_of_true rfl ⟨h1, h2⟩⟩

/-- The recency flag of one repository holds exactly for a parsed
timestamp inside the 180-day window. -/
theorem recentRepoFlag_iff (now : ℤ) (r : RawRepositoryRecord) :
    recentRepoFlag now r = true ↔ ∃ t, r.updated_at = some t ∧ now - t < 180 := by
  cases h : r.updated_at with
  | none => simp [recentRepoFlag, h]
  | some t =>
    simp only [recentRepoFlag, h, decide_eq_true_eq, Option.some.injEq]
    constructor
    · intro hw
      exact ⟨t, rfl, by omega⟩
    · rintro ⟨u, hu, hw⟩
      omega

/-- Events with unparseable timestamps are invisible to the 30-day window:
filtering them away first changes nothing. -/
theorem recentWindow_parse_filter (now : ℤ) (events : List RawEventRecord) :
    recentWindow now (events.filter (fun e => e.created_at.isSome)) =
      recentWindow now events := by
  induction events with
  | nil => rfl
  | cons e es ih =>
    simp only [recentWindow, List.filter_cons] at ih ⊢
    cases h : e.created_at with
    | none => simp [inWindow, h, ih, List.filter_cons]
    | some t => simp [inWindow, h, ih, List.filter_cons]

/-- The paired language fold is the pair of the two independent folds. -/
theorem foldl_langStep_eq (repos : List RawRepositoryRecord) :
    ∀ a b, repos.foldl langStep (a, b) =
      (repos.foldl countStep a, repos.foldl weightStep b) := by
  induction repos with
  | nil => intro a b; rfl
  | cons r rs ih =>
    intro a b
    have hstep : langStep (a, b) r = (countStep a r, weightStep b r) := by
      cases h : r.language with
      | none => simp [langStep, countStep, weightStep, h]
      | some l =>
        by_cases hl : l = "" <;> simp [langStep, countStep, weightStep, h, hl]
    simp only [List.foldl_cons, hstep, ih]

/-- The one-pass language merge equals the two independently ranked,
first-seen-deduplicated, capped lists of the specification. -/
theorem topLanguages_eq (repos : List RawRepositoryRecord) :
    topLanguages repos =
      (dedupFirst (((sortDescCounts (langWeights repos)).take 8).map Prod.fst ++
        ((sortDescCounts (langCounts repos)).take 8).map Prod.fst)).take 10 := by
  unfold topLanguages langCounts langWeights
  rw [foldl_langStep_eq]

/-- C1 counterexample: on the empty repository and event lists the produced
profile's complexity preference is not "intermediate" (it is "beginner",
because `avg_stars = 0 < 5` and `total_forks = 0 < 3`). -/
theorem empty_input_complexity_cex :
    (analyze (fun l => l) 0 blankUser [] []).project_complexity_preference ≠
      "intermediate" := by
  have hb : (analyze (fun l => l) 0 blankUser [] []).project_complexity_preference =
      "beginner" := by
    show complexityTier 0 0 0 = "beginner"
    unfold complexityTier avgStars
    norm_num
  rw [hb]
  decide

/-- C1 (amended): for every user record, analysing the empty repository and
event lists yields activity tier "moderate", complexity tier "beginner"
(mirrored by the complexity preference), and collaboration style
"independent"; being a total function, the analysis raises nothing. -/
theorem empty_input_defaults (pySet : List String → List String) (now : ℤ)
    (user : RawUserRecord) :
    (analyze pySet now user [] []).activity_analysis.activity_type = "moderate" ∧
    (analyze pySet now user [] []).repo_analysis.avg_complexity = "beginner" ∧
    (analyze pySet now user [] []).project_complexity_preference = "beginner" ∧
    (analyze pySet now user [] []).collaboration_style = "independent" := by
  have hb : complexityTier 0 0 0 = "beginner" := by
    unfold complexityTier avgStars
    norm_num
  have hi : analyze_collaboration_style [] [] = "independent" := by
    have h : analyze_collaboration_style [] [] =
        (if ((0 : ℕ) : ℚ) > ((0 : ℕ) : ℚ) * 0.5 ∨ (0 : ℕ) > 5 then "collaborative"
         else if (0 : ℕ) > 0 ∨ (0 : ℕ) > 0 then "mixed"
         else "independent") := rfl
    rw [h]
    norm_num
  exact ⟨rfl, hb, hb, hi⟩

/-- C2 counterexample: the expertise tier is not the tier of the
specification's untruncated factor sum.  With an unparseable creation
timestamp, 20 public repositories, 60 followers, activity score 100 and one
repository of 3 stars, the source truncates `int(3 * 0.2) = 0` and lands on
a sum of exactly 70 ("intermediate"), while the untruncated factors sum to
70.6 (">70", hence "expert"). -/
theorem expertise_formula_cex :
    calculate_expertise_level 0 boundaryUser [starRepo 3] fullActivity = "intermediate" ∧
    expertiseTierOf (expertiseScoreSpec 0 boundaryUser [starRepo 3] fullActivity) =
      "expert" := by
  constructor
  · have hs : expertiseScore 0 boundaryUser [starRepo 3] fullActivity = 70 := by
      unfold expertiseScore
      norm_num [boundaryUser, blankUser, fullActivity, starRepo, pyInt]
    have h1 : calculate_expertise_level 0 boundaryUser [starRepo 3] fullActivity =
        expertiseTierOf (expertiseScore 0 boundaryUser [starRepo 3] fullActivity) := rfl
    rw [h1, hs]
    unfold expertiseTierOf
    norm_num
  · have hs : expertiseScoreSpec 0 boundaryUser [starRepo 3] fullActivity = 353 / 5 := by
      unfold expertiseScoreSpec
      norm_num [boundaryUser, blankUser, fullActivity, starRepo]
    rw [hs]
    unfold expertiseTierOf
    norm_num

/-- C2 (amended): the expertise tier is the strict-threshold tier
(">70 expert, >40 intermediate, >15 beginner, else newcomer") of the sum of
the five capped factors, where the account-age product `years * 10` and the
complexity product `stars * 0.2` are truncated to integers before capping
and the account-age factor falls back to exactly 10 when the creation
timestamp fails to parse; a factor sum of exactly 70 yields "intermediate",
71 yields "expert", and the §8 scenario sums to 90 and yields "expert". -/
theorem expertise_level_characterization :
    (∀ (now : ℤ) (user : RawUserRecord) (repos : List RawRepositoryRecord)
        (act : ActivityAnalysis),
      calculate_expertise_level now user repos act =
        expertiseTierOf (expertiseScore now user repos act)) ∧
    expertiseScore 0 boundaryUser [] fullActivity = 70 ∧
    calculate_expertise_level 0 boundaryUser [] fullActivity = "intermediate" ∧
    expertiseScore 0 boundaryUser [starRepo 5] fullActivity = 71 ∧
    calculate_expertise_level 0 boundaryUser [starRepo 5] fullActivity = "expert" ∧
    expertiseScore 1825 scenarioUser [starRepo 30] scenarioActivity = 90 ∧
    calculate_expertise_level 1825 scenarioUser [starRepo 30] scenarioActivity =
      "expert" := by
  have h70 : expertiseScore 0 boundaryUser [] fullActivity = 70 := by
    unfold expertiseScore
    norm_num [boundaryUser, blankUser, fullActivity, pyInt]
  have h71 : expertiseScore 0 boundaryUser [starRepo 5] fullActivity = 71 := by
    unfold expertiseScore
    norm_num [boundaryUser, blankUser, fullActivity, starRepo, pyInt]
  have h90 : expertiseScore 1825 scenarioUser [starRepo 30] scenarioActivity = 90 := by
    unfold expertiseScore
    norm_num [scenarioUser, scenarioActivity, blankUser, fullActivity, starRepo, pyInt]
  refine ⟨fun _ _ _ _ => rfl, h70, ?_, h71, ?_, h90, ?_⟩
  · have h1 : calculate_expertise_level 0 boundaryUser [] fullActivity =
        expertiseTierOf (expertiseScore 0 boundaryUser [] fullActivity) := rfl
    rw [h1, h70]
    unfold expertiseTierOf
    norm_num
  · have h1 : calculate_expertise_level 0 boundaryUser [starRepo 5] fullActivity =
        expertiseTierOf (expertiseScore 0 boundaryUser [starRepo 5] fullActivity) := rfl
    rw [h1, h71]
    unfold expertiseTierOf
    norm_num
  · have h1 : calculate_expertise_level 1825 scenarioUser [starRepo 30] scenarioActivity =
        expertiseTierOf (expertiseScore 1825 scenarioUser [starRepo 30] scenarioActivity) :=
      rfl
    rw [h1, h90]
    unfold expertiseTierOf
    norm_num

/-- C3: the complexity tier is "advanced" exactly when
`avg_stars = total_stars / max(count, 1)` exceeds 50 or the fork total
exceeds 20; otherwise "beginner" exactly when `avg_stars < 5` and
`total_forks < 3`; otherwise "intermediate".  Ten repositories with 501
stars in total (average 50.1, no forks) are "advanced", while an average of
exactly 50 is "intermediate": the comparisons are strict. -/
theorem complexity_tier_spec :
    (∀ (pySet : List String → List String) (now : ℤ)
        (repos : List RawRepositoryRecord),
      ((analyze_repositories pySet now repos).avg_complexity = "advanced" ↔
        (avgStars (analyze_repositories pySet now repos).total_stars repos.length > 50 ∨
          (analyze_repositories pySet now repos).total_forks > 20)) ∧
      ((analyze_repositories pySet now repos).avg_complexity = "beginner" ↔
        ¬(avgStars (analyze_repositories pySet now repos).total_stars repos.length > 50 ∨
            (analyze_repositories pySet now repos).total_forks > 20) ∧
          (avgStars (analyze_repositories pySet now repos).total_stars repos.length < 5 ∧
            (analyze_repositories pySet now repos).total_forks < 3)) ∧
      ((analyze_repositories pySet now repos).avg_complexity = "intermediate" ↔
        ¬(avgStars (analyze_repositories pySet now repos).total_stars repos.length > 50 ∨
            (analyze_repositories pySet now repos).total_forks > 20) ∧
          ¬(avgStars (analyze_repositories pySet now repos).total_stars repos.length < 5 ∧
            (analyze_repositories pySet now repos).total_forks < 3))) ∧
    (analyze_repositories (fun l => l) 0 tenRepos501).avg_complexity = "advanced" ∧
    (analyze_repositories (fun l => l) 0 tenRepos500).avg_complexity = "intermediate" := by
  refine ⟨fun pySet now repos => complexityTier_eq_iff _ _ _, ?_, ?_⟩
  · show complexityTier 501 0 10 = "advanced"
    unfold complexityTier avgStars
    norm_num [show (max 10 1 : ℕ) = 10 from rfl]
  · show complexityTier 500 0 10 = "intermediate"
    unfold complexityTier avgStars
    norm_num [show (max 10 1 : ℕ) = 10 from rfl]

/-- C4: for a non-empty event list, the recent-activity score is
`min(recent_event_count * 3, 100)` over the parseable events of the
trailing 30-day window, the activity tier follows the strict thresholds
20/10/3 on that count, and the collaboration level compares pull-request
and issue events against `push_events * 0.3` inside the same window. -/
theorem activity_patterns_spec (now : ℤ) (events : List RawEventRecord)
    (h : events ≠ []) :
    (analyze_activity_patterns now events).recent_activity_score =
      min (recentCount now events * 3) 100 ∧
    (analyze_activity_patterns now events).activity_type =
      (if recentCount now events > 20 then "very_active"
       else if recentCount now events > 10 then "active"
       else if recentCount now events > 3 then "moderate"
       else "low") ∧
    (analyze_activity_patterns now events).collaboration_level =
      (if (prIssueCount now events : ℚ) > (pushCount now events : ℚ) * 0.3 then
        "collaborative"
       else if prIssueCount now events > 0 then "mixed"
       else "individual") := by
  match events, h with
  | e :: es, _ => exact ⟨rfl, rfl, rfl⟩

/-- C4 witness: one push event dated at the reference instant gives score
3, tier "low" and collaboration level "individual". -/
theorem activity_patterns_spec_witness :
    (analyze_activity_patterns 0 [{ type := "PushEvent", created_at := some 0 }]).recent_activity_score = 3 ∧
    (analyze_activity_patterns 0 [{ type := "PushEvent", created_at := some 0 }]).activity_type = "low" ∧
    (analyze_activity_patterns 0 [{ type := "PushEvent", created_at := some 0 }]).collaboration_level = "individual" := by
  have h := activity_patterns_spec 0 [{ type := "PushEvent", created_at := some 0 }]
    (by decide)
  refine ⟨h.1.trans (by decide), h.2.1.trans (by decide), h.2.2.trans ?_⟩
  have hpr : prIssueCount 0 [{ type := "PushEvent", created_at := some 0 }] = 0 := rfl
  have hpu : pushCount 0 [{ type := "PushEvent", created_at := some 0 }] = 1 := rfl
  rw [hpr, hpu]
  norm_num

/-- C5: the collaboration style is "collaborative" when the forked
repositories outnumber half the originals or more than five
fork/pull-request/issue events occur, "mixed" when any fork or any such
event occurs, and "independent" otherwise; six forks out of ten
repositories give "collaborative" even with no events at all. -/
theorem collaboration_style_spec :
    (∀ (repos : List RawRepositoryRecord) (events : List RawEventRecord),
      analyze_collaboration_style repos events =
        (if ((repos.filter (fun r => r.fork)).length : ℚ) >
            ((repos.length - (repos.filter (fun r => r.fork)).length : ℕ) : ℚ) * 0.5 ∨
            (events.filter (fun e => collabTypes.contains e.type)).length > 5 then
          "collaborative"
         else if (repos.filter (fun r => r.fork)).length > 0 ∨
            (events.filter (fun e => collabTypes.contains e.type)).length > 0 then
          "mixed"
         else "independent")) ∧
    analyze_collaboration_style sixOfTenForked [] = "collaborative" := by
  refine ⟨fun _ _ => rfl, ?_⟩
  have h : analyze_collaboration_style sixOfTenForked [] =
      (if ((6 : ℕ) : ℚ) > ((4 : ℕ) : ℚ) * 0.5 ∨ (0 : ℕ) > 5 then "collaborative"
       else if (6 : ℕ) > 0 ∨ (0 : ℕ) > 0 then "mixed"
       else "independent") := rfl
  rw [h]
  norm_num

/-- C7: the top-language list is exactly the weighted ranking (weight
`(stars + 1) * (size + 1)`) followed by the raw-count ranking, each capped
at 8, deduplicated in first-seen order and capped at 10 — two independent
rankings merged, not one blended score. -/
theorem language_merge_spec (pySet : List String → List String) (now : ℤ)
    (user : RawUserRecord) (repos : List RawRepositoryRecord)
    (events : List RawEventRecord) :
    (analyze pySet now user repos events).languages =
      (dedupFirst (((sortDescCounts (langWeights repos)).take 8).map Prod.fst ++
        ((sortDescCounts (langCounts repos)).take 8).map Prod.fst)).take 10 :=
  topLanguages_eq repos

/-- C8: records with unparseable timestamps are excluded from the
time-windowed aggregations but nothing else: the 180-day recent-activity
flag holds exactly when some repository has a parsed `updated_at` inside
the window, the 30-day event window is unchanged when unparseable events
are removed first, and the star/fork totals still count every repository,
timestamped or not. -/
theorem timestamp_skip_spec :
    (∀ (pySet : List String → List String) (now : ℤ)
        (repos : List RawRepositoryRecord),
      ((analyze_repositories pySet now repos).recent_activity = true ↔
        ∃ r ∈ repos, ∃ t, r.updated_at = some t ∧ now - t < 180)) ∧
    (∀ (now : ℤ) (events : List RawEventRecord),
      recentWindow now (events.filter (fun e => e.created_at.isSome)) =
        recentWindow now events) ∧
    (∀ (pySet : List String → List String) (now : ℤ)
        (repos : List RawRepositoryRecord),
      (analyze_repositories pySet now repos).total_stars =
          ((repos.map (fun r => r.stargazers_count)).sum) ∧
        (analyze_repositories pySet now repos).total_forks =
          ((repos.map (fun r => r.forks_count)).sum)) := by
  refine ⟨?_, recentWindow_parse_filter, fun pySet now repos => ⟨rfl, rfl⟩⟩
  intro pySet now repos
  show repos.any (recentRepoFlag now) = true ↔ _
  rw [List.any_eq_true]
  constructor
  · rintro ⟨r, hr, hflag⟩
    exact ⟨r, hr, (recentRepoFlag_iff now r).1 hflag⟩
  · rintro ⟨r, hr, ht⟩
    exact ⟨r, hr, (recentRepoFlag_iff now r).2 ht⟩

/-- C10: for every runtime character classification (the Unicode-aware
classes behind `str.strip` and `str.isalnum`), the service operation
always returns an `AnalysisResponse`; if the (stripped) username is empty,
longer than 39 characters, or contains a character that is neither
alphanumeric (per that same `isalnum` class) nor a hyphen nor an
underscore, or if the fetch or the recommendation call throws, the
response has `success = false`, carries an error message, and leaves
`recommendations` and `profile` unset; and every response is either a
success or exactly such a failure. -/
theorem service_error_handling (isSpace isAlnumChar : Char → Bool)
    (agents : List String)
    (fetchProfile : String → Except String ScoredProfile)
    (callAgent : String → ScoredProfile → Except String String)
    (username agent_name : String) :
    ((pyStrip isSpace username = "" ∨ (pyStrip isSpace username).length > 39 ∨
        (∃ c ∈ (pyStrip isSpace username).data,
          ¬(isAlnumChar c = true ∨ c = '-' ∨ c = '_')) ∨
        (∃ e, fetchProfile (pyStrip isSpace username) = Except.error e) ∨
        (∃ p e, fetchProfile (pyStrip isSpace username) = Except.ok p ∧
          callAgent agent_name p = Except.error e)) →
      ((analyze_github_profile isSpace isAlnumChar agents fetchProfile callAgent username
            agent_name).success = false ∧
        (analyze_github_profile isSpace isAlnumChar agents fetchProfile callAgent username
            agent_name).recommendations = none ∧
        (analyze_github_profile isSpace isAlnumChar agents fetchProfile callAgent username
            agent_name).profile = none ∧
        (analyze_github_profile isSpace isAlnumChar agents fetchProfile callAgent username
            agent_name).error.isSome = true)) ∧
    ((analyze_github_profile isSpace isAlnumChar agents fetchProfile callAgent username
          agent_name).success = true ∨
      ((analyze_github_profile isSpace isAlnumChar agents fetchProfile callAgent username
            agent_name).success = false ∧
        (analyze_github_profile isSpace isAlnumChar agents fetchProfile callAgent username
            agent_name).recommendations = none ∧
        (analyze_github_profile isSpace isAlnumChar agents fetchProfile callAgent username
            agent_name).profile = none ∧
        (analyze_github_profile isSpace isAlnumChar agents fetchProfile callAgent username
            agent_name).error.isSome = true)) := by
  constructor
  · intro H
    have hE : ∃ e, analyzeProfileE isSpace isAlnumChar agents fetchProfile callAgent
        username agent_name = Except.error e := by
      unfold analyzeProfileE
      split_ifs with h1 h2 h3 h4
      · exact ⟨_, rfl⟩
      · exact ⟨_, rfl⟩
      · exact ⟨_, rfl⟩
      · exact ⟨_, rfl⟩
      · rcases H with H | H | ⟨c, hc, hprop⟩ | ⟨e, hF⟩ | ⟨p, e, hok, hG⟩
        · exact absurd H h1
        · exact absurd H h2
        · exfalso
          have h3a : pyIsAlnum isAlnumChar
              (dropDashUnderscore (pyStrip isSpace username)) = true := by
            simpa using h3
          unfold pyIsAlnum at h3a
          rw [Bool.and_eq_true] at h3a
          have hall := h3a.2
          rw [List.all_eq_true] at hall
          push_neg at hprop
          obtain ⟨ha, hd, hu⟩ := hprop
          have hcf : c ∈ (dropDashUnderscore (pyStrip isSpace username)).data := by
            show c ∈ (pyStrip isSpace username).data.filter (fun c => !(c = '-' || c = '_'))
            rw [List.mem_filter]
            refine ⟨hc, ?_⟩
            simp [hd, hu]
          exact ha (hall c hcf)
        · exact ⟨e, by simp [hF]⟩
        · exact ⟨e, by simp [hok, hG]⟩
    obtain ⟨e, he⟩ := hE
    refine ⟨?_, ?_, ?_, ?_⟩ <;> simp [analyze_github_profile, he]
  · cases hE : analyzeProfileE isSpace isAlnumChar agents fetchProfile callAgent username
        agent_name with
    | ok pr =>
      left
      simp [analyze_github_profile, hE]
    | error e =>
      right
      refine ⟨?_, ?_, ?_, ?_⟩ <;> simp [analyze_github_profile, hE]

/-- C10 witness: a concrete request whose fetch step throws yields the
failure-shaped response (instantiating the runtime character classes with
one concrete choice). -/
theorem service_error_handling_witness :
    (analyze_github_profile Char.isWhitespace Char.isAlphanum ["hackathon_recommender"]
        (fun _ => Except.error "rate limit") (fun _ _ => Except.ok "recs") "octocat"
        "hackathon_recommender").success = false ∧
    (analyze_github_profile Char.isWhitespace Char.isAlphanum ["hackathon_recommender"]
        (fun _ => Except.error "rate limit") (fun _ _ => Except.ok "recs") "octocat"
        "hackathon_recommender").recommendations = none ∧
    (analyze_github_profile Char.isWhitespace Char.isAlphanum ["hackathon_recommender"]
        (fun _ => Except.error "rate limit") (fun _ _ => Except.ok "recs") "octocat"
        "hackathon_recommender").profile = none ∧
    (analyze_github_profile Char.isWhitespace Char.isAlphanum ["hackathon_recommender"]
        (fun _ => Except.error "rate limit") (fun _ _ => Except.ok "recs") "octocat"
        "hackathon_recommender").error.isSome = true := by
  have h := service_error_handling Char.isWhitespace Char.isAlphanum
    ["hackathon_recommender"] (fun _ => Except.error "rate limit")
    (fun _ _ => Except.ok "recs") "octocat" "hackathon_recommender"
  exact h.1 (Or.inr (Or.inr (Or.inr (Or.inl ⟨"rate limit", rfl⟩))))

end Hacksy
